import Mathlib

/-!
Verification development for the GPIB Control Framework repository.

The repository ships a React frontend (`useInstrumentActions.js`,
`useInstruments.js`, `InstrumentPanel.js`, `InstrumentSettings.js`, `App.js`)
and a README describing a FastAPI backend (`backend/`, Instrument Store and
Session Controller) whose source is not part of the checkout.  The frontend
code is embedded directly from its source; the backend Instrument Store and
Session Controller are modelled from the specification, as indicated on each
definition.
-/

namespace GPIB

/-- Instrument field payload as entered in the settings form
(`InstrumentSettings.js` `formData`): name, type, gpibAddress, description,
autoConnect, measurementType, range, resolution. -/
structure RawFields where
  name : String
  type : String
  gpibAddress : Int
  description : String
  autoConnect : Bool
  measurementType : String
  range : String
  resolution : String
deriving Repr, DecidableEq

/-- The closed enumeration of instrument types, from the `type` select
options in `InstrumentSettings.js`. -/
def typeEnum : List String :=
  ["34401A", "34410A", "34461A", "34465A", "custom"]

/-- The closed enumeration of measurement types, from the `measurementType`
select options in `InstrumentSettings.js`. -/
def measurementTypeEnum : List String :=
  ["DC_VOLTAGE", "AC_VOLTAGE", "DC_CURRENT", "AC_CURRENT",
   "RESISTANCE", "FREQUENCY", "PERIOD"]

/-- The closed enumeration of range settings, from the `range` select
options in `InstrumentSettings.js`: `AUTO` or a numeric full scale. -/
def rangeEnum : List String :=
  ["AUTO", "0.1", "1", "10", "100", "1000"]

/-- The closed enumeration of resolutions (digit counts), from the
`resolution` select options in `InstrumentSettings.js`. -/
def resolutionEnum : List String :=
  ["4.5", "5.5", "6.5", "7.5"]

/-- Modelled from the spec: the backend validation of a creation/update
payload (`create(fields)` "validates enumerations and address range",
`gpibAddress` an integer in [0, 30] inclusive); the backend source under
`backend/` is not part of the checkout.  Returns the list of offending
field names, empty when the payload is valid. -/
def invalidFields (f : RawFields) : List String :=
  (if 0 ≤ f.gpibAddress ∧ f.gpibAddress ≤ 30 then [] else ["gpibAddress"]) ++
  (if f.type ∈ typeEnum then [] else ["type"]) ++
  (if f.measurementType ∈ measurementTypeEnum then [] else ["measurementType"]) ++
  (if f.range ∈ rangeEnum then [] else ["range"]) ++
  (if f.resolution ∈ resolutionEnum then [] else ["resolution"])

/-- A stored instrument record: assigned `id`, the user-supplied fields, and
the store-managed `createdAt`/`updatedAt` timestamps. -/
structure Instrument where
  id : Nat
  fields : RawFields
  createdAt : Nat
  updatedAt : Nat
deriving Repr, DecidableEq

/-- Errors of the store and session controller taxonomy (spec section 7). -/
inductive OpError where
  | NotFound : OpError
  | ValidationError : List String → OpError
  | NotConnected : OpError
deriving Repr, DecidableEq

/-- Modelled from the spec: the Instrument Store state (`backend/` is not
part of the checkout) — the live records plus the next id to assign. -/
structure Store where
  records : List Instrument
  nextId : Nat
deriving Repr, DecidableEq

/-- The store with no records. -/
def emptyStore : Store := ⟨[], 1⟩

/-- Look up a record by id. -/
def Store.find (s : Store) (id : Nat) : Option Instrument :=
  s.records.find? (fun r => r.id == id)

/-- Modelled from the spec: `get(id)` returns the Instrument or fails with
`NotFound`. -/
def Store.get (s : Store) (id : Nat) : Except OpError Instrument :=
  match s.find id with
  | some r => .ok r
  | none => .error .NotFound

/-- Modelled from the spec: `create(fields)` validates enumerations and the
address range, assigns `id`, `createdAt`, `updatedAt`, and returns the
stored record; on any constraint violation it fails with `ValidationError`
listing the offending field(s) and stores nothing. -/
def Store.create (s : Store) (now : Nat) (f : RawFields) :
    Except OpError (Instrument × Store) :=
  match invalidFields f with
  | [] =>
    let r : Instrument := ⟨s.nextId, f, now, now⟩
    .ok (r, ⟨r :: s.records, s.nextId + 1⟩)
  | bad => .error (.ValidationError bad)

/-- A partial field set for `update`: each field optionally supplied. -/
structure UpdateFields where
  name : Option String := none
  type : Option String := none
  gpibAddress : Option Int := none
  description : Option String := none
  autoConnect : Option Bool := none
  measurementType : Option String := none
  range : Option String := none
  resolution : Option String := none
deriving Repr, DecidableEq

/-- Modelled from the spec: merging supplied fields onto an existing
record's fields (each supplied field replaces the old value, each
unsupplied field is kept). -/
def mergeFields (old : RawFields) (p : UpdateFields) : RawFields :=
  ⟨p.name.getD old.name, p.type.getD old.type,
   p.gpibAddress.getD old.gpibAddress, p.description.getD old.description,
   p.autoConnect.getD old.autoConnect,
   p.measurementType.getD old.measurementType,
   p.range.getD old.range, p.resolution.getD old.resolution⟩

/-- Modelled from the spec: `update(id, partialFields)` merges the supplied
fields onto the existing record, re-validates the merged result, refreshes
`updatedAt`; fails with `NotFound` if `id` is absent and with
`ValidationError` on an invalid merged state (leaving the store
unchanged). -/
def Store.update (s : Store) (now : Nat) (id : Nat) (p : UpdateFields) :
    Except OpError (Instrument × Store) :=
  match s.find id with
  | none => .error .NotFound
  | some old =>
    let merged := mergeFields old.fields p
    match invalidFields merged with
    | [] =>
      let r : Instrument := ⟨old.id, merged, old.createdAt, now⟩
      .ok (r, ⟨s.records.map (fun q => if q.id == id then r else q), s.nextId⟩)
    | bad => .error (.ValidationError bad)

/-- Modelled from the spec: `delete(id)` removes the record, failing with
`NotFound` if absent (the cascading session drop lives on the combined
system, below). -/
def Store.delete (s : Store) (id : Nat) : Except OpError Store :=
  match s.find id with
  | none => .error .NotFound
  | some _ => .ok ⟨s.records.filter (fun q => q.id != id), s.nextId⟩

/-- Modelled from the spec: a transient session, keyed by instrument id,
holding `connected` and `lastValue`. -/
structure Session where
  connected : Bool
  lastValue : ℚ
deriving Repr, DecidableEq

/-- The two session states of the spec's state machine. -/
inductive ConnState where
  | Connected : ConnState
  | Disconnected : ConnState
deriving Repr, DecidableEq

/-- Look a session up in the controller's session map; an id with no entry
behaves as a fresh disconnected session. -/
def lookupSession (ss : List (Nat × Session)) (id : Nat) : Session :=
  match ss.find? (fun p => p.1 == id) with
  | some p => p.2
  | none => ⟨false, 0⟩

/-- Write a session for an id into the session map. -/
def setSession (ss : List (Nat × Session)) (id : Nat) (s : Session) :
    List (Nat × Session) :=
  (id, s) :: ss.filter (fun p => p.1 != id)

/-- Drop any session for an id from the session map. -/
def dropSession (ss : List (Nat × Session)) (id : Nat) :
    List (Nat × Session) :=
  ss.filter (fun p => p.1 != id)

/-- Modelled from the spec: the complete system state — the Instrument
Store plus the Session Controller's transient session map (`backend/` is
not part of the checkout). -/
structure System where
  store : Store
  sessions : List (Nat × Session)
deriving Repr, DecidableEq

/-- The initial system: empty store, no sessions. -/
def initSystem : System := ⟨emptyStore, []⟩

/-- The session for an instrument id. -/
def System.sessionFor (y : System) (id : Nat) : Session :=
  lookupSession y.sessions id

/-- The connection state of the session for an instrument id. -/
def System.sessionState (y : System) (id : Nat) : ConnState :=
  if (y.sessionFor id).connected then .Connected else .Disconnected

/-- Modelled from the spec: `connect(id)` requires the instrument to exist
in the store (else `NotFound`), transitions `Disconnected → Connected`, and
is idempotent if already `Connected`; a session is created implicitly on
the first connect attempt. -/
def System.connect (y : System) (id : Nat) : Except OpError System :=
  match y.store.find id with
  | none => .error .NotFound
  | some _ =>
    .ok ⟨y.store, setSession y.sessions id ⟨true, (y.sessionFor id).lastValue⟩⟩

/-- Modelled from the spec: `disconnect(id)` transitions to `Disconnected`
from any state, idempotently; the session is destroyed on disconnect. -/
def System.disconnect (y : System) (id : Nat) : Except OpError System :=
  .ok ⟨y.store, dropSession y.sessions id⟩

/-- Numeric full-scale bound of a range setting; `AUTO` (and anything
outside the enumeration) has no fixed bound. -/
def rangeBound (s : String) : Option ℚ :=
  if s = "0.1" then some (1/10)
  else if s = "1" then some 1
  else if s = "10" then some 10
  else if s = "100" then some 100
  else if s = "1000" then some 1000
  else none

/-- Reading quantum of a resolution setting: a d½-digit resolution is
modelled as readings quantised to steps of `10^-d`, i.e. `4.5 ↦ 10^-4` up
to `7.5 ↦ 10^-7`. -/
def resolutionQuantum (s : String) : ℚ :=
  if s = "4.5" then 1/10^4
  else if s = "5.5" then 1/10^5
  else if s = "6.5" then 1/10^6
  else if s = "7.5" then 1/10^7
  else 1/10^6

/-- Measurement unit of a measurement type; `DC_VOLTAGE` and `AC_VOLTAGE`
are voltages in `V`. -/
def unitOf (s : String) : String :=
  if s = "DC_VOLTAGE" then "V"
  else if s = "AC_VOLTAGE" then "V"
  else if s = "DC_CURRENT" then "A"
  else if s = "AC_CURRENT" then "A"
  else if s = "RESISTANCE" then "Ohm"
  else if s = "FREQUENCY" then "Hz"
  else if s = "PERIOD" then "s"
  else "?"

/-- Modelled from the spec: the pluggable reading generator — from an
entropy input `r` in [0, 1) it produces a value conforming to the
instrument's configured `range` (within the full scale, with `AUTO`
auto-ranging on a 10 V full scale as in the simulated stand-in) and
`resolution` (a multiple of the resolution quantum). -/
def genReading (f : RawFields) (r : ℚ) : ℚ :=
  let fs := (rangeBound f.range).getD 10
  let q := resolutionQuantum f.resolution
  ⌊r * fs / q⌋ * q

/-- The value a reading conforms to its configured range: within the full
scale for a numeric range, nonnegative under auto-ranging. -/
def conformsRange (v : ℚ) (range : String) : Prop :=
  match rangeBound range with
  | some b => 0 ≤ v ∧ v ≤ b
  | none => 0 ≤ v

/-- The value a reading conforms to its configured resolution: a multiple
of the resolution quantum. -/
def conformsResolution (v : ℚ) (res : String) : Prop :=
  ∃ n : ℤ, v = n * resolutionQuantum res

/-- A measurement result: the value, its unit, and a timestamp. -/
structure Reading where
  value : ℚ
  unit : String
  timestamp : Nat
deriving Repr, DecidableEq

/-- Modelled from the spec: `measure(id)` requires the instrument to exist
(else `NotFound`) and the current state `Connected` (else `NotConnected`);
it produces a reading conforming to the configured `measurementType`,
`range` and `resolution`, updates the session's `lastValue`, and returns
the value plus a timestamp. -/
def System.measure (y : System) (id : Nat) (now : Nat) (r : ℚ) :
    Except OpError (Reading × System) :=
  match y.store.find id with
  | none => .error .NotFound
  | some inst =>
    if (y.sessionFor id).connected then
      let v := genReading inst.fields r
      .ok (⟨v, unitOf inst.fields.measurementType, now⟩,
           ⟨y.store, setSession y.sessions id ⟨true, v⟩⟩)
    else .error .NotConnected

/-- Modelled from the spec: system-level `delete(id)` — removes the record
and cascades to drop any session for `id`. -/
def System.deleteInstrument (y : System) (id : Nat) : Except OpError System :=
  match y.store.delete id with
  | .ok s => .ok ⟨s, dropSession y.sessions id⟩
  | .error e => .error e

/-- The operations of the store and session controller, for stating
reachability over operation traces. -/
inductive Op where
  | create : Nat → RawFields → Op
  | update : Nat → Nat → UpdateFields → Op
  | delete : Nat → Op
  | connect : Nat → Op
  | disconnect : Nat → Op
  | measure : Nat → Nat → ℚ → Op
deriving DecidableEq

/-- One step of the system: apply an operation, keeping the new state on
success and the old state when the operation fails. -/
def System.step (y : System) : Op → System
  | .create now f =>
    match y.store.create now f with
    | .ok (_, s2) => ⟨s2, y.sessions⟩
    | .error _ => y
  | .update now id p =>
    match y.store.update now id p with
    | .ok (_, s2) => ⟨s2, y.sessions⟩
    | .error _ => y
  | .delete id =>
    match y.deleteInstrument id with
    | .ok y2 => y2
    | .error _ => y
  | .connect id =>
    match y.connect id with
    | .ok y2 => y2
    | .error _ => y
  | .disconnect id =>
    match y.disconnect id with
    | .ok y2 => y2
    | .error _ => y
  | .measure id now r =>
    match y.measure id now r with
    | .ok (_, y2) => y2
    | .error _ => y

/-- Run a trace of operations from the initial system. -/
def run (ops : List Op) : System :=
  ops.foldl System.step initSystem

/-! ### Client mutation hooks, embedded from `useInstrumentActions.js` -/

/-- An axios error as inspected by the hooks: `error.code` and
`error.response?.status`. -/
structure HttpErr where
  code : Option String
  responseStatus : Option Nat
deriving Repr, DecidableEq

/-- Outcome of an axios request: a successful response carrying data, or an
error. -/
inductive HttpResult (α : Type) where
  | ok : α → HttpResult α
  | err : HttpErr → HttpResult α
deriving Repr, DecidableEq

/-- The fallback condition of `useInstrumentActions.js`:
`error.code === 'ERR_NETWORK' || error.response?.status === 404`. -/
def isFallbackErr (e : HttpErr) : Bool :=
  e.code == some "ERR_NETWORK" || e.responseStatus == some 404

/-- A record as the client hooks return it: `id`, the instrument data, and
optional `createdAt` / `updatedAt` timestamps (synthesized records from
`updateInstrument` carry no `createdAt`). -/
structure ClientRecord where
  id : Nat
  data : RawFields
  createdAt : Option Nat
  updatedAt : Option Nat
deriving Repr, DecidableEq

/-- `addInstrument` from `useInstrumentActions.js`: POSTs the data; on
`ERR_NETWORK` or a 404 response it returns a synthesized record with
`id = Date.now()` and `createdAt`/`updatedAt` the current time; any other
error is rethrown.  `now` stands for the current time (`Date.now()` /
`new Date().toISOString()`). -/
def addInstrument (outcome : HttpResult ClientRecord) (now : Nat)
    (instrumentData : RawFields) : Except HttpErr ClientRecord :=
  match outcome with
  | .ok d => .ok d
  | .err e =>
    if isFallbackErr e then
      .ok ⟨now, instrumentData, some now, some now⟩
    else .error e

/-- `updateInstrument` from `useInstrumentActions.js`: PUTs the data; on
`ERR_NETWORK` or a 404 response it returns the supplied id and fields with
a refreshed `updatedAt` and no `createdAt`; any other error is
rethrown. -/
def updateInstrument (outcome : HttpResult ClientRecord) (now : Nat)
    (id : Nat) (instrumentData : RawFields) : Except HttpErr ClientRecord :=
  match outcome with
  | .ok d => .ok d
  | .err e =>
    if isFallbackErr e then
      .ok ⟨id, instrumentData, none, some now⟩
    else .error e

/-- `deleteInstrument` from `useInstrumentActions.js`: DELETEs; on success
or on `ERR_NETWORK` / 404 it returns the requested id; any other error is
rethrown. -/
def deleteInstrument (outcome : HttpResult Unit) (id : Nat) :
    Except HttpErr Nat :=
  match outcome with
  | .ok _ => .ok id
  | .err e =>
    if isFallbackErr e then .ok id
    else .error e

/-! ### Instrument panel, embedded from `InstrumentPanel.js` -/

/-- The panel's state: the `isConnected` and `currentValue` `useState`
hooks of `InstrumentPanel.js`; the displayed string `currentValue` is
modelled by its numeric value. -/
structure PanelState where
  isConnected : Bool
  currentValue : ℚ
deriving Repr, DecidableEq

/-- The panel's initial state: `useState(false)` and `useState('0.000')`. -/
def initialPanel : PanelState := ⟨false, 0⟩

/-- JavaScript `x.toFixed(3)` on a nonnegative value, as the numeric value
of the produced string: rounding to the nearest multiple of `1/1000`. -/
def toFixed3 (x : ℚ) : ℚ := (round (x * 1000) : ℤ) / 1000

/-- The value the panel produces for one measurement:
`(Math.random() * 10).toFixed(3)`, with `r` the `Math.random()` draw. -/
def panelMeasuredValue (r : ℚ) : ℚ := toFixed3 (r * 10)

/-- `handleMeasure` from `InstrumentPanel.js`: when not connected it
reports an error and leaves the state unchanged; when connected it sets
`currentValue` to `(Math.random() * 10).toFixed(3)`. -/
def handleMeasure (s : PanelState) (r : ℚ) : PanelState :=
  if s.isConnected then ⟨s.isConnected, panelMeasuredValue r⟩ else s

/-- The 2-second interval body of the panel's `useEffect`: when connected
it sets `currentValue` to `(Math.random() * 10).toFixed(3)`, otherwise it
does nothing. -/
def panelInterval (s : PanelState) (r : ℚ) : PanelState :=
  if s.isConnected then ⟨s.isConnected, panelMeasuredValue r⟩ else s

/-- `handleConnect` from `InstrumentPanel.js`: toggles `isConnected`. -/
def handleConnect (s : PanelState) : PanelState :=
  ⟨!s.isConnected, s.currentValue⟩

/-- The mount effect of `InstrumentPanel.js`: `setIsConnected
(Math.random() > 0.3)`, with `c` the outcome of the draw. -/
def panelMount (s : PanelState) (c : Bool) : PanelState :=
  ⟨c, s.currentValue⟩

/-! ### Concrete sample data (spec section 8 scenario) -/

/-- The scenario payload of the spec: name `DMM1`, type `34401A`,
gpibAddress 22, measurementType `DC_VOLTAGE`, range `AUTO`,
resolution 6.5. -/
def samplePayload : RawFields :=
  ⟨"DMM1", "34401A", 22, "", false, "DC_VOLTAGE", "AUTO", "6.5"⟩

/-- A payload with an out-of-range address and an out-of-enumeration
measurement type. -/
def badPayload : RawFields :=
  ⟨"DMM2", "34401A", 42, "", false, "VOLTAGE", "AUTO", "6.5"⟩

/-- A partial field set supplying only an out-of-enumeration
`measurementType`. -/
def badPatch : UpdateFields :=
  ⟨none, none, none, none, none, some "VOLTAGE", none, none⟩

/-- A store holding the sample instrument under id 1. -/
def sampleStore : Store := ⟨[⟨1, samplePayload, 0, 0⟩], 2⟩

/-- A system holding the sample instrument, with no sessions. -/
def sampleSystem : System := ⟨sampleStore, []⟩

/-- A system holding the sample instrument, with its session connected. -/
def connectedSystem : System := ⟨sampleStore, [(1, ⟨true, 0⟩)]⟩

/-! ### Helper lemmas on the session map -/

theorem lookupSession_set_self (ss : List (Nat × Session)) (id : Nat)
    (s : Session) : lookupSession (setSession ss id s) id = s := by
  simp [lookupSession, setSession, List.find?_cons]

theorem find?_filter_ne (ss : List (Nat × Session)) (a : Nat) :
    (ss.filter (fun p => p.1 != a)).find? (fun p => p.1 == a) = none := by
  induction ss with
  | nil => rfl
  | cons hd tl ih =>
    by_cases h : hd.1 = a
    · simp [List.filter_cons, h, ih]
    · simp [List.filter_cons, h, List.find?_cons, ih]

theorem lookupSession_drop_self (ss : List (Nat × Session)) (id : Nat) :
    lookupSession (dropSession ss id) id = ⟨false, 0⟩ := by
  simp only [lookupSession, dropSession, find?_filter_ne]

theorem find?_filter_other (ss : List (Nat × Session)) (a b : Nat)
    (h : b ≠ a) :
    (ss.filter (fun p => p.1 != a)).find? (fun p => p.1 == b) =
      ss.find? (fun p => p.1 == b) := by
  induction ss with
  | nil => rfl
  | cons hd tl ih =>
    by_cases hhd : hd.1 = a
    · simp [List.filter_cons, hhd, List.find?_cons, Ne.symm h, ih]
    · by_cases hb : hd.1 = b
      · simp [List.filter_cons, hhd, List.find?_cons, hb, h]
      · simp [List.filter_cons, hhd, List.find?_cons, hb, ih]

theorem lookupSession_set_other (ss : List (Nat × Session)) (a b : Nat)
    (s : Session) (h : b ≠ a) :
    lookupSession (setSession ss a s) b = lookupSession ss b := by
  simp [lookupSession, setSession, List.find?_cons, Ne.symm h,
    find?_filter_other ss a b h]

theorem lookupSession_drop_other (ss : List (Nat × Session)) (a b : Nat)
    (h : b ≠ a) :
    lookupSession (dropSession ss a) b = lookupSession ss b := by
  simp [lookupSession, dropSession, find?_filter_other ss a b h]

/-! ### Helper lemmas on system operations -/

theorem sessionState_mk_set_true (st : Store) (ss : List (Nat × Session))
    (id : Nat) (v : ℚ) :
    System.sessionState ⟨st, setSession ss id ⟨true, v⟩⟩ id = .Connected := by
  simp [System.sessionState, System.sessionFor, lookupSession_set_self]

theorem sessionState_mk_drop (st : Store) (ss : List (Nat × Session))
    (id : Nat) :
    System.sessionState ⟨st, dropSession ss id⟩ id = .Disconnected := by
  simp [System.sessionState, System.sessionFor, lookupSession_drop_self]

theorem connect_ok (y : System) (id : Nat) (inst : Instrument)
    (h : y.store.find id = some inst) :
    y.connect id =
      .ok ⟨y.store, setSession y.sessions id
            ⟨true, (y.sessionFor id).lastValue⟩⟩ := by
  simp [System.connect, h]

theorem sessionState_connected_iff (y : System) (id : Nat) :
    y.sessionState id = .Connected ↔ (y.sessionFor id).connected = true := by
  simp [System.sessionState]

theorem sessionState_disconnected_iff (y : System) (id : Nat) :
    y.sessionState id = .Disconnected ↔
      (y.sessionFor id).connected = false := by
  simp [System.sessionState]

theorem find?_map_update (l : List Instrument) (id : Nat) (r : Instrument)
    (hr : r.id = id)
    (hex : (l.find? (fun q => q.id == id)).isSome = true) :
    (l.map (fun q => if q.id == id then r else q)).find?
      (fun q => q.id == id) = some r := by
  induction l with
  | nil => simp at hex
  | cons hd tl ih =>
    by_cases h : hd.id = id
    · simp [h, hr]
    · rw [List.map_cons, if_neg (by simp [h]),
        List.find?_cons_of_neg _ (by simp [h])]
      apply ih
      rwa [List.find?_cons_of_neg _ (by simp [h])] at hex

theorem fullScale_pos (s : String) : 0 < (rangeBound s).getD 10 := by
  unfold rangeBound
  split_ifs <;> norm_num

theorem resolutionQuantum_pos (s : String) : 0 < resolutionQuantum s := by
  unfold resolutionQuantum
  split_ifs <;> norm_num

theorem genReading_nonneg (f : RawFields) (r : ℚ) (h0 : 0 ≤ r) :
    0 ≤ genReading f r := by
  unfold genReading
  have hq := resolutionQuantum_pos f.resolution
  have hfs := fullScale_pos f.range
  have hx : (0:ℚ) ≤ r * (rangeBound f.range).getD 10 / resolutionQuantum f.resolution := by
    positivity
  have h1 : (0:ℤ) ≤ ⌊r * (rangeBound f.range).getD 10 / resolutionQuantum f.resolution⌋ :=
    Int.floor_nonneg.mpr hx
  have h2 : (0:ℚ) ≤ (⌊r * (rangeBound f.range).getD 10 / resolutionQuantum f.resolution⌋ : ℚ) := by
    exact_mod_cast h1
  nlinarith

theorem genReading_le (f : RawFields) (r : ℚ) (h1 : r < 1) :
    genReading f r ≤ (rangeBound f.range).getD 10 := by
  unfold genReading
  have hq := resolutionQuantum_pos f.resolution
  have hfs := fullScale_pos f.range
  have hfl : (⌊r * (rangeBound f.range).getD 10 / resolutionQuantum f.resolution⌋ : ℚ) ≤
      r * (rangeBound f.range).getD 10 / resolutionQuantum f.resolution :=
    Int.floor_le _
  have hmul : (⌊r * (rangeBound f.range).getD 10 / resolutionQuantum f.resolution⌋ : ℚ) *
      resolutionQuantum f.resolution ≤ r * (rangeBound f.range).getD 10 := by
    have := mul_le_mul_of_nonneg_right hfl (le_of_lt hq)
    rwa [div_mul_cancel₀ _ (ne_of_gt hq)] at this
  have hr10 : r * (rangeBound f.range).getD 10 ≤ (rangeBound f.range).getD 10 :=
    mul_le_of_le_one_left (le_of_lt hfs) (le_of_lt h1)
  linarith

theorem genReading_conforms (f : RawFields) (r : ℚ) (h0 : 0 ≤ r) (h1 : r < 1) :
    conformsRange (genReading f r) f.range ∧
    conformsResolution (genReading f r) f.resolution := by
  constructor
  · unfold conformsRange
    cases h : rangeBound f.range with
    | none => exact genReading_nonneg f r h0
    | some b =>
      refine ⟨genReading_nonneg f r h0, ?_⟩
      have hle := genReading_le f r h1
      rw [h] at hle
      simpa using hle
  · exact ⟨⌊r * (rangeBound f.range).getD 10 / resolutionQuantum f.resolution⌋, rfl⟩

theorem invalidFields_nil_iff (f : RawFields) :
    invalidFields f = [] ↔
      ((0 ≤ f.gpibAddress ∧ f.gpibAddress ≤ 30) ∧ f.type ∈ typeEnum ∧
       f.measurementType ∈ measurementTypeEnum ∧ f.range ∈ rangeEnum ∧
       f.resolution ∈ resolutionEnum) := by
  unfold invalidFields
  split_ifs <;> simp_all

theorem gpib_mem_invalidFields (f : RawFields) :
    "gpibAddress" ∈ invalidFields f ↔
      ¬(0 ≤ f.gpibAddress ∧ f.gpibAddress ≤ 30) := by
  unfold invalidFields
  split_ifs <;> simp_all

theorem type_mem_invalidFields (f : RawFields) :
    "type" ∈ invalidFields f ↔ f.type ∉ typeEnum := by
  unfold invalidFields
  split_ifs <;> simp_all

theorem mt_mem_invalidFields (f : RawFields) :
    "measurementType" ∈ invalidFields f ↔
      f.measurementType ∉ measurementTypeEnum := by
  unfold invalidFields
  split_ifs <;> simp_all

theorem range_mem_invalidFields (f : RawFields) :
    "range" ∈ invalidFields f ↔ f.range ∉ rangeEnum := by
  unfold invalidFields
  split_ifs <;> simp_all

theorem resolution_mem_invalidFields (f : RawFields) :
    "resolution" ∈ invalidFields f ↔ f.resolution ∉ resolutionEnum := by
  unfold invalidFields
  split_ifs <;> simp_all

theorem create_valid_eq (s : Store) (now : Nat) (f : RawFields)
    (h : invalidFields f = []) :
    s.create now f =
      .ok (⟨s.nextId, f, now, now⟩,
           ⟨⟨s.nextId, f, now, now⟩ :: s.records, s.nextId + 1⟩) := by
  simp [Store.create, h]

theorem create_invalid_eq (s : Store) (now : Nat) (f : RawFields)
    (h : invalidFields f ≠ []) :
    s.create now f = .error (.ValidationError (invalidFields f)) := by
  cases hl : invalidFields f with
  | nil => exact absurd hl h
  | cons a l => simp [Store.create, hl]

theorem find_id_eq (s : Store) (id : Nat) (old : Instrument)
    (h : s.find id = some old) : old.id = id := by
  unfold Store.find at h
  have := List.find?_some h
  simpa using this

theorem update_valid_eq (s : Store) (now id : Nat) (p : UpdateFields)
    (old : Instrument) (hfind : s.find id = some old)
    (h : invalidFields (mergeFields old.fields p) = []) :
    s.update now id p =
      .ok (⟨old.id, mergeFields old.fields p, old.createdAt, now⟩,
           ⟨s.records.map (fun q => if q.id == id then
              (⟨old.id, mergeFields old.fields p, old.createdAt, now⟩ :
                Instrument) else q),
            s.nextId⟩) := by
  simp [Store.update, hfind, h]

theorem update_invalid_eq (s : Store) (now id : Nat) (p : UpdateFields)
    (old : Instrument) (hfind : s.find id = some old)
    (h : invalidFields (mergeFields old.fields p) ≠ []) :
    s.update now id p =
      .error (.ValidationError (invalidFields (mergeFields old.fields p))) := by
  cases hl : invalidFields (mergeFields old.fields p) with
  | nil => exact absurd hl h
  | cons a l => simp [Store.update, hfind, hl]

theorem step_preserves_disc (y : System) (op : Op) (id : Nat)
    (hop : op ≠ Op.connect id)
    (h : (y.sessionFor id).connected = false) :
    ((y.step op).sessionFor id).connected = false := by
  cases op with
  | create now f =>
    cases hc : y.store.create now f with
    | ok v =>
      cases v with
      | mk r s2 => simpa [System.step, hc, System.sessionFor] using h
    | error e => simpa [System.step, hc] using h
  | update now id2 p =>
    cases hc : y.store.update now id2 p with
    | ok v =>
      cases v with
      | mk r s2 => simpa [System.step, hc, System.sessionFor] using h
    | error e => simpa [System.step, hc] using h
  | delete id2 =>
    cases hc : y.store.delete id2 with
    | ok s2 =>
      by_cases hd : id = id2
      · subst hd
        simp [System.step, System.deleteInstrument, hc, System.sessionFor,
          lookupSession_drop_self]
      · simpa [System.step, System.deleteInstrument, hc, System.sessionFor,
          lookupSession_drop_other y.sessions id2 id hd] using h
    | error e => simpa [System.step, System.deleteInstrument, hc] using h
  | connect id2 =>
    have hne : id ≠ id2 := by
      intro he
      exact hop (by rw [he])
    cases hc : y.store.find id2 with
    | none => simpa [System.step, System.connect, hc] using h
    | some inst =>
      simpa [System.step, System.connect, hc, System.sessionFor,
        lookupSession_set_other y.sessions id2 id _ hne] using h
  | disconnect id2 =>
    by_cases hd : id = id2
    · subst hd
      simp [System.step, System.disconnect, System.sessionFor,
        lookupSession_drop_self]
    · simpa [System.step, System.disconnect, System.sessionFor,
        lookupSession_drop_other y.sessions id2 id hd] using h
  | measure id2 now r =>
    cases hfind : y.store.find id2 with
    | none => simpa [System.step, System.measure, hfind] using h
    | some inst =>
      by_cases hcon : (lookupSession y.sessions id2).connected = true
      · by_cases hd : id = id2
        · subst hd
          have hfalse : (lookupSession y.sessions id).connected = false := h
          rw [hfalse] at hcon
          exact absurd hcon (by simp)
        · have hm : y.measure id2 now r =
              .ok (⟨genReading inst.fields r,
                    unitOf inst.fields.measurementType, now⟩,
                   ⟨y.store, setSession y.sessions id2
                     ⟨true, genReading inst.fields r⟩⟩) := by
            simp [System.measure, hfind, System.sessionFor, hcon]
          simp only [System.step, hm]
          simpa [System.sessionFor,
            lookupSession_set_other y.sessions id2 id _ hd] using h
      · simpa [System.step, System.measure, hfind, System.sessionFor,
          hcon] using h

theorem run_aux (ops : List Op) (y : System) (id : Nat)
    (hno : ∀ op ∈ ops, op ≠ Op.connect id)
    (h : (y.sessionFor id).connected = false) :
    ((ops.foldl System.step y).sessionFor id).connected = false := by
  induction ops generalizing y with
  | nil => exact h
  | cons op tl ih =>
    exact ih (y.step op)
      (fun o ho => hno o (List.mem_cons_of_mem _ ho))
      (step_preserves_disc y op id (hno op (List.mem_cons_self _ _)) h)

/-! ### Claim theorems -/

/-- C1: connect and disconnect are idempotent for every instrument id that
exists in the store: if the session is already `Connected`, `connect`
succeeds again and leaves it `Connected`; calling `connect` twice in a row
from `Disconnected` succeeds both times and leaves it `Connected`; and
`disconnect` on an already-`Disconnected` session succeeds and leaves it
`Disconnected`. -/
theorem connect_disconnect_idempotent (y : System) (id : Nat)
    (hex : (y.store.find id).isSome = true) :
    (y.sessionState id = .Connected →
      ∃ y2, y.connect id = .ok y2 ∧ y2.sessionState id = .Connected) ∧
    (y.sessionState id = .Disconnected →
      ∃ y2 y3, y.connect id = .ok y2 ∧ y2.connect id = .ok y3 ∧
        y2.sessionState id = .Connected ∧ y3.sessionState id = .Connected) ∧
    (y.sessionState id = .Disconnected →
      ∃ y2, y.disconnect id = .ok y2 ∧ y2.sessionState id = .Disconnected) := by
  obtain ⟨inst, hfind⟩ := Option.isSome_iff_exists.mp hex
  refine ⟨?_, ?_, ?_⟩
  · intro _
    exact ⟨_, connect_ok y id inst hfind, sessionState_mk_set_true _ _ _ _⟩
  · intro _
    exact ⟨_, _, connect_ok y id inst hfind, connect_ok _ id inst hfind,
      sessionState_mk_set_true _ _ _ _, sessionState_mk_set_true _ _ _ _⟩
  · intro _
    exact ⟨_, rfl, sessionState_mk_drop _ _ _⟩

theorem connect_disconnect_idempotent_witness :
    ∃ y2, sampleSystem.disconnect 1 = .ok y2 ∧
      y2.sessionState 1 = .Disconnected :=
  (connect_disconnect_idempotent sampleSystem 1 (by decide)).2.2 (by decide)

/-- C2: for an instrument id present in the store, `measure` succeeds if
and only if its session is currently `Connected`, and whenever the session
is not `Connected` it fails with the `NotConnected` error. -/
theorem measure_iff_connected (y : System) (id now : Nat) (r : ℚ)
    (hex : (y.store.find id).isSome = true) :
    ((∃ out, y.measure id now r = .ok out) ↔
      y.sessionState id = .Connected) ∧
    (y.sessionState id ≠ .Connected →
      y.measure id now r = .error .NotConnected) := by
  obtain ⟨inst, hfind⟩ := Option.isSome_iff_exists.mp hex
  by_cases hc : (y.sessionFor id).connected = true
  · have hok : y.measure id now r =
        .ok (⟨genReading inst.fields r,
              unitOf inst.fields.measurementType, now⟩,
             ⟨y.store, setSession y.sessions id
               ⟨true, genReading inst.fields r⟩⟩) := by
      simp [System.measure, hfind, hc]
    refine ⟨⟨fun _ => (sessionState_connected_iff y id).mpr hc,
      fun _ => ⟨_, hok⟩⟩, fun hne => ?_⟩
    exact absurd ((sessionState_connected_iff y id).mpr hc) hne
  · have herr : y.measure id now r = .error .NotConnected := by
      simp [System.measure, hfind, hc]
    refine ⟨⟨fun hout => ?_, fun hcon => ?_⟩, fun _ => herr⟩
    · obtain ⟨out, hout⟩ := hout
      rw [herr] at hout
      simp at hout
    · exact absurd ((sessionState_connected_iff y id).mp hcon) hc

theorem measure_iff_connected_witness :
    ∃ out, connectedSystem.measure 1 7 (1/2) = .ok out :=
  (measure_iff_connected connectedSystem 1 7 (1/2) (by decide)).1.mpr
    (by decide)

/-- C3: for an instrument whose session is `Connected`, a successful
`measure` returns a reading whose value conforms to the configured
`range` and `resolution`, whose unit is determined by the configured
`measurementType` (in particular `V` for `DC_VOLTAGE`), updates the
session's `lastValue` to the returned value, and returns the value
together with a timestamp. -/
theorem measure_reading_conforms (y : System) (id now : Nat) (r : ℚ)
    (inst : Instrument) (hfind : y.store.find id = some inst)
    (hconn : y.sessionState id = .Connected)
    (hr0 : 0 ≤ r) (hr1 : r < 1) :
    ∃ rd y2, y.measure id now r = .ok (rd, y2) ∧
      conformsRange rd.value inst.fields.range ∧
      conformsResolution rd.value inst.fields.resolution ∧
      rd.unit = unitOf inst.fields.measurementType ∧
      (inst.fields.measurementType = "DC_VOLTAGE" → rd.unit = "V") ∧
      (y2.sessionFor id).lastValue = rd.value ∧
      rd.timestamp = now := by
  have hc := (sessionState_connected_iff y id).mp hconn
  have hok : y.measure id now r =
      .ok (⟨genReading inst.fields r,
            unitOf inst.fields.measurementType, now⟩,
           ⟨y.store, setSession y.sessions id
             ⟨true, genReading inst.fields r⟩⟩) := by
    simp [System.measure, hfind, hc]
  obtain ⟨hrange, hres⟩ := genReading_conforms inst.fields r hr0 hr1
  refine ⟨_, _, hok, hrange, hres, rfl, ?_, ?_, rfl⟩
  · intro hmt
    simp [unitOf, hmt]
  · simp [System.sessionFor, lookupSession_set_self]

theorem measure_reading_conforms_witness :
    ∃ rd y2, connectedSystem.measure 1 7 (1/2) = .ok (rd, y2) ∧
      conformsRange rd.value samplePayload.range ∧
      conformsResolution rd.value samplePayload.resolution ∧
      rd.unit = unitOf samplePayload.measurementType ∧
      (samplePayload.measurementType = "DC_VOLTAGE" → rd.unit = "V") ∧
      (y2.sessionFor 1).lastValue = rd.value ∧
      rd.timestamp = 7 :=
  measure_reading_conforms connectedSystem 1 7 (1/2) ⟨1, samplePayload, 0, 0⟩
    (by decide) (by decide) (by norm_num) (by norm_num)

/-- C4: for an id absent from the store, `get`, `update`, `delete`,
`connect` and `measure` all fail with the `NotFound` error. -/
theorem missing_id_not_found (y : System) (now id : Nat) (p : UpdateFields)
    (r : ℚ) (habs : y.store.find id = none) :
    y.store.get id = .error .NotFound ∧
    y.store.update now id p = .error .NotFound ∧
    y.store.delete id = .error .NotFound ∧
    y.connect id = .error .NotFound ∧
    y.measure id now r = .error .NotFound := by
  refine ⟨?_, ?_, ?_, ?_, ?_⟩ <;>
    simp [Store.get, Store.update, Store.delete, System.connect,
      System.measure, habs]

theorem missing_id_not_found_witness :
    sampleSystem.store.get 99 = .error .NotFound ∧
    sampleSystem.store.update 5 99 badPatch = .error .NotFound ∧
    sampleSystem.store.delete 99 = .error .NotFound ∧
    sampleSystem.connect 99 = .error .NotFound ∧
    sampleSystem.measure 99 5 (1/2) = .error .NotFound :=
  missing_id_not_found sampleSystem 5 99 badPatch (1/2) (by decide)

/-- C5: `create` validates that `gpibAddress` is an integer in [0, 30]
inclusive and that `type`, `measurementType`, `range` and `resolution` are
members of their closed enumerations; on any violation it fails with a
`ValidationError` listing exactly the offending field(s) and stores
nothing, and otherwise it assigns `id`, `createdAt` and `updatedAt` and
returns the stored record. -/
theorem create_validates (s : Store) (now : Nat) (f : RawFields) :
    (invalidFields f = [] ↔
      ((0 ≤ f.gpibAddress ∧ f.gpibAddress ≤ 30) ∧ f.type ∈ typeEnum ∧
       f.measurementType ∈ measurementTypeEnum ∧ f.range ∈ rangeEnum ∧
       f.resolution ∈ resolutionEnum)) ∧
    ("gpibAddress" ∈ invalidFields f ↔
      ¬(0 ≤ f.gpibAddress ∧ f.gpibAddress ≤ 30)) ∧
    ("type" ∈ invalidFields f ↔ f.type ∉ typeEnum) ∧
    ("measurementType" ∈ invalidFields f ↔
      f.measurementType ∉ measurementTypeEnum) ∧
    ("range" ∈ invalidFields f ↔ f.range ∉ rangeEnum) ∧
    ("resolution" ∈ invalidFields f ↔ f.resolution ∉ resolutionEnum) ∧
    (invalidFields f ≠ [] →
      s.create now f = .error (.ValidationError (invalidFields f))) ∧
    (invalidFields f = [] →
      s.create now f =
        .ok (⟨s.nextId, f, now, now⟩,
             ⟨⟨s.nextId, f, now, now⟩ :: s.records, s.nextId + 1⟩)) :=
  ⟨invalidFields_nil_iff f, gpib_mem_invalidFields f,
   type_mem_invalidFields f, mt_mem_invalidFields f,
   range_mem_invalidFields f, resolution_mem_invalidFields f,
   create_invalid_eq s now f, create_valid_eq s now f⟩

theorem create_validates_witness :
    emptyStore.create 5 badPayload =
      .error (.ValidationError (invalidFields badPayload)) ∧
    invalidFields badPayload = ["gpibAddress", "measurementType"] :=
  ⟨(create_validates emptyStore 5 badPayload).2.2.2.2.2.2.1 (by decide),
   by decide⟩

/-- C6: for an id present in the store, `update` merges the supplied fields
onto the existing record, leaving every unsupplied field — including `id`
and `createdAt` — unchanged and refreshing `updatedAt`; if the merged
result is invalid, the stored record is unchanged and the operation fails
with `ValidationError`. -/
theorem update_merges_and_validates (s : Store) (now id : Nat)
    (p : UpdateFields) (old : Instrument) (hfind : s.find id = some old) :
    (invalidFields (mergeFields old.fields p) = [] →
      ∃ rec s2, s.update now id p = .ok (rec, s2) ∧
        rec.id = old.id ∧ rec.createdAt = old.createdAt ∧
        rec.updatedAt = now ∧
        rec.fields.name = p.name.getD old.fields.name ∧
        rec.fields.type = p.type.getD old.fields.type ∧
        rec.fields.gpibAddress = p.gpibAddress.getD old.fields.gpibAddress ∧
        rec.fields.description = p.description.getD old.fields.description ∧
        rec.fields.autoConnect = p.autoConnect.getD old.fields.autoConnect ∧
        rec.fields.measurementType =
          p.measurementType.getD old.fields.measurementType ∧
        rec.fields.range = p.range.getD old.fields.range ∧
        rec.fields.resolution = p.resolution.getD old.fields.resolution ∧
        s2.find id = some rec) ∧
    (invalidFields (mergeFields old.fields p) ≠ [] →
      s.update now id p =
        .error (.ValidationError (invalidFields (mergeFields old.fields p))) ∧
      s.find id = some old) := by
  constructor
  · intro h
    refine ⟨_, _, update_valid_eq s now id p old hfind h, rfl, rfl, rfl,
      rfl, rfl, rfl, rfl, rfl, rfl, rfl, rfl, ?_⟩
    unfold Store.find
    apply find?_map_update
    · exact find_id_eq s id old hfind
    · unfold Store.find at hfind
      simp [hfind]
  · intro h
    exact ⟨update_invalid_eq s now id p old hfind h, hfind⟩

theorem update_merges_and_validates_witness :
    sampleStore.update 9 1 badPatch =
      .error (.ValidationError
        (invalidFields (mergeFields samplePayload badPatch))) ∧
    sampleStore.find 1 = some ⟨1, samplePayload, 0, 0⟩ :=
  (update_merges_and_validates sampleStore 9 1 badPatch
    ⟨1, samplePayload, 0, 0⟩ (by decide)).2 (by decide)

/-- C7: for a valid creation payload, `create` followed by `get` of the
assigned id returns a record whose user-supplied fields all equal the
payload and whose `createdAt` equals its `updatedAt`. -/
theorem create_then_get (s : Store) (now : Nat) (f : RawFields)
    (hvalid : invalidFields f = []) :
    ∃ rec s2, s.create now f = .ok (rec, s2) ∧ s2.get rec.id = .ok rec ∧
      rec.fields = f ∧ rec.createdAt = rec.updatedAt := by
  refine ⟨_, _, create_valid_eq s now f hvalid, ?_, rfl, rfl⟩
  simp [Store.get, Store.find, List.find?_cons]

theorem create_then_get_witness :
    ∃ rec s2, emptyStore.create 5 samplePayload = .ok (rec, s2) ∧
      s2.get rec.id = .ok rec ∧ rec.fields = samplePayload ∧
      rec.createdAt = rec.updatedAt :=
  create_then_get emptyStore 5 samplePayload (by decide)

/-- C8: the session state machine of every instrument id starts in
`Disconnected`: in the initial system, and after any trace of operations
containing no `connect(id)`, the session for `id` is `Disconnected`; and
every reachable session state is either `Connected` or `Disconnected`. -/
theorem sessions_start_disconnected (id : Nat) (ops ops2 : List Op)
    (hno : ∀ op ∈ ops, op ≠ Op.connect id) :
    initSystem.sessionState id = .Disconnected ∧
    (run ops).sessionState id = .Disconnected ∧
    ((run ops2).sessionState id = .Connected ∨
      (run ops2).sessionState id = .Disconnected) := by
  refine ⟨rfl, ?_, ?_⟩
  · have h0 : (initSystem.sessionFor id).connected = false := rfl
    exact (sessionState_disconnected_iff _ id).mpr
      (run_aux ops initSystem id hno h0)
  · cases hst : (run ops2).sessionState id with
    | Connected => exact Or.inl rfl
    | Disconnected => exact Or.inr rfl

theorem sessions_start_disconnected_witness :
    initSystem.sessionState 1 = .Disconnected ∧
    (run [Op.create 5 samplePayload, Op.connect 2,
          Op.disconnect 1]).sessionState 1 = .Disconnected ∧
    ((run []).sessionState 1 = .Connected ∨
      (run []).sessionState 1 = .Disconnected) :=
  sessions_start_disconnected 1
    [Op.create 5 samplePayload, Op.connect 2, Op.disconnect 1] []
    (by decide)

/-- C9: the client mutation hooks report success on `ERR_NETWORK` or a 404
response — `addInstrument` synthesizes a record whose id and timestamps
are the current time, `updateInstrument` returns the supplied fields with
a refreshed `updatedAt` and no `createdAt`, `deleteInstrument` returns the
requested id — and rethrow every other error. -/
theorem client_fallback_synthesizes (e : HttpErr) (now id : Nat)
    (d : RawFields) :
    (isFallbackErr e = true ↔
      (e.code = some "ERR_NETWORK" ∨ e.responseStatus = some 404)) ∧
    (isFallbackErr e = true →
      addInstrument (.err e) now d = .ok ⟨now, d, some now, some now⟩ ∧
      updateInstrument (.err e) now id d = .ok ⟨id, d, none, some now⟩ ∧
      deleteInstrument (.err e) id = .ok id) ∧
    (isFallbackErr e = false →
      addInstrument (.err e) now d = .error e ∧
      updateInstrument (.err e) now id d = .error e ∧
      deleteInstrument (.err e) id = .error e) := by
  refine ⟨?_, ?_, ?_⟩
  · simp [isFallbackErr]
  · intro h
    simp [addInstrument, updateInstrument, deleteInstrument, h]
  · intro h
    simp [addInstrument, updateInstrument, deleteInstrument, h]

theorem client_fallback_synthesizes_witness :
    addInstrument (.err ⟨some "ERR_NETWORK", none⟩) 5 samplePayload =
      .ok ⟨5, samplePayload, some 5, some 5⟩ ∧
    updateInstrument (.err ⟨some "ERR_NETWORK", none⟩) 5 3 samplePayload =
      .ok ⟨3, samplePayload, none, some 5⟩ ∧
    deleteInstrument (.err ⟨some "ERR_NETWORK", none⟩) 3 = .ok 3 :=
  (client_fallback_synthesizes ⟨some "ERR_NETWORK", none⟩ 5 3
    samplePayload).2.1 (by decide)

/-- Bounds for the displayed value: rounding a value of [0, 10) to three
decimal places lands in [0, 10] (and can reach 10 itself). -/
theorem toFixed3_bounds (x : ℚ) (h0 : 0 ≤ x) (h1 : x < 10) :
    0 ≤ toFixed3 x ∧ toFixed3 x ≤ 10 := by
  unfold toFixed3
  constructor
  · have hz : (0:ℤ) ≤ round (x * 1000) := by
      rw [round_eq]
      apply Int.floor_nonneg.mpr
      linarith
    have hzq : (0:ℚ) ≤ (round (x * 1000) : ℤ) := by exact_mod_cast hz
    positivity
  · have hlt : round (x * 1000) < 10001 := by
      rw [round_eq]
      apply Int.floor_lt.mpr
      push_cast
      linarith
    have hle : round (x * 1000) ≤ 10000 := by omega
    rw [div_le_iff₀ (by norm_num : (0:ℚ) < 1000)]
    exact_mod_cast hle

/-- C10 counterexample: at the draw `r = 0.99999` the panel's displayed
measurement value is exactly `10.000`, which is not in the half-open
interval [0, 10). -/
theorem panel_value_can_reach_ten :
    (handleMeasure ⟨true, 0⟩ (99999/100000)).currentValue = 10 ∧
    ¬((handleMeasure ⟨true, 0⟩ (99999/100000)).currentValue < 10) := by
  have h : (handleMeasure ⟨true, 0⟩ (99999/100000)).currentValue = 10 := by
    show toFixed3 ((99999/100000 : ℚ) * 10) = 10
    rw [toFixed3, round_eq]
    norm_num
  exact ⟨h, by rw [h]; exact lt_irrefl 10⟩

/-- C10 (amended): every measurement the connected panel produces — from a
measure action or the 2-second refresh — is the draw times 10, a raw value
in [0, 10), rounded to exactly three decimal places, giving a displayed
value in the closed interval [0, 10]; the behaviour is independent of any
instrument configuration (the panel functions take none), and a measure
attempted while disconnected leaves the state unchanged. -/
theorem panel_value_bounds (s : PanelState) (r : ℚ)
    (h0 : 0 ≤ r) (h1 : r < 1) :
    (0 ≤ r * 10 ∧ r * 10 < 10) ∧
    (s.isConnected = true →
      (handleMeasure s r).currentValue = toFixed3 (r * 10) ∧
      panelInterval s r = handleMeasure s r ∧
      0 ≤ (handleMeasure s r).currentValue ∧
      (handleMeasure s r).currentValue ≤ 10 ∧
      (∃ n : ℤ, (handleMeasure s r).currentValue = (n : ℚ) / 1000)) ∧
    (s.isConnected = false →
      handleMeasure s r = s ∧ panelInterval s r = s) := by
  have hraw : 0 ≤ r * 10 ∧ r * 10 < 10 :=
    ⟨by positivity, by nlinarith⟩
  refine ⟨hraw, ?_, ?_⟩
  · intro hc
    have hval : (handleMeasure s r).currentValue = toFixed3 (r * 10) := by
      simp [handleMeasure, hc, panelMeasuredValue]
    obtain ⟨hb0, hb1⟩ := toFixed3_bounds (r * 10) hraw.1 hraw.2
    refine ⟨hval, by simp [handleMeasure, panelInterval], ?_, ?_, ?_⟩
    · rw [hval]; exact hb0
    · rw [hval]; exact hb1
    · rw [hval]; exact ⟨round (r * 10 * 1000), rfl⟩
  · intro hc
    exact ⟨by simp [handleMeasure, hc], by simp [panelInterval, hc]⟩

theorem panel_value_bounds_witness :
    (handleMeasure ⟨true, 0⟩ (1/2)).currentValue = toFixed3 ((1/2) * 10) ∧
    panelInterval ⟨true, 0⟩ (1/2) = handleMeasure ⟨true, 0⟩ (1/2) ∧
    0 ≤ (handleMeasure ⟨true, 0⟩ (1/2)).currentValue ∧
    (handleMeasure ⟨true, 0⟩ (1/2)).currentValue ≤ 10 ∧
    (∃ n : ℤ, (handleMeasure ⟨true, 0⟩ (1/2)).currentValue = (n : ℚ) / 1000) :=
  (panel_value_bounds ⟨true, 0⟩ (1/2) (by norm_num) (by norm_num)).2.1 rfl

end GPIB
